import Mathlib

/-!
Verification of the gemini-rag-zero repository against its design spec.

The repository is a set of Python CLI scripts around the Gemini File Search
API: `gemini-rag-zero.py` (a demo that creates a store, uploads sample PDFs,
queries them and deletes the store), `manage-filestore.py` / `manage-store.py`
(store management: stats, upload, import, delete, query) and
`query-store.py` (querying).  The network boundary (the `client.…` calls) is
modelled by explicit environment inputs: each remote call's outcome is a
value of `Except String _` supplied as input, and each polled operation's
successive fetched states form a `List Operation`.  The remote calls a run
issues are collected in a `List RemoteCall` trace.
-/

namespace GeminiRag

/-- A File Search Store as the remote system reports it
(`store.name`, `store.display_name`). -/
structure Store where
  name : String
  displayName : String
deriving DecidableEq

/-- A long-running operation state as fetched from the remote system.
`error` is `none` when the attribute is absent or falsy
(the Python code tests `hasattr(operation, 'error') and operation.error`);
likewise `response`.  The response payload is opaque here. -/
structure Operation where
  done : Bool
  error : Option String
  response : Option String
deriving DecidableEq

/-- The data-model invariant of §3 of the spec: once `done` is true, exactly
one of `error` / `response` is present. -/
def wellFormedOp (op : Operation) : Prop :=
  op.done = true → (op.error.isSome ↔ op.response = none)

/-- A document as returned by `documents.list`.  `sizeBytes` is `none`
when the `size_bytes` attribute is absent (the code reads it with
`getattr(doc, 'size_bytes', 0)`, i.e. absent is treated as 0). -/
structure Document where
  name : String
  displayName : String
  sizeBytes : Option Nat
deriving DecidableEq

/-- The chunking configuration dictionary passed on upload calls. -/
structure ChunkingConfig where
  maxTokensPerChunk : Nat
  maxOverlapTokens : Nat
deriving DecidableEq

/-- The chunking configuration literal that is hard-coded at every
upload site in the repository
(`'max_tokens_per_chunk': 500, 'max_overlap_tokens': 50`). -/
def demoChunkingConfig : ChunkingConfig :=
  { maxTokensPerChunk := 500, maxOverlapTokens := 50 }

/-- One remote call issued over the network boundary.  Traces of these are
what the embedded functions record as they run. -/
inductive RemoteCall where
  | createStore (displayName : String)
  | submitUpload (storeName : String) (path : String) (cfg : ChunkingConfig)
  | submitImport (storeName : String) (fileId : String)
  | generateGrounded (model : String) (question : String) (storeNames : List String)
  | deleteStore (name : String) (force : Bool)
  | deleteDocument (name : String)
deriving DecidableEq

/-!
## The completion-wait loop

All three poll sites — `upload_files` (manage-filestore.py:195-197),
`import_files` (manage-filestore.py:446-448) and the demo `main`
(gemini-rag-zero.py:137-139) — run the same loop:

    while not operation.done:
        time.sleep(2)
        operation = client.operations.get(operation)

`pollLoop op fetches` runs that loop where `op` is the operation returned by
the submission call and `fetches` the successive states `operations.get`
returns.  It yields `some` final state when a fetched state (or `op` itself)
has `done`, and `none` when the trace is exhausted first — the Python loop
would still be spinning at that point, so `none` models the not-yet-returned
(possibly forever-spinning) loop.
-/

def pollLoop (op : Operation) (fetches : List Operation) : Option Operation :=
  match fetches with
  | [] => if op.done then some op else none
  | f :: rest => if op.done then some op else pollLoop f rest

/-- What each loop's tail reports once the loop has exited. -/
inductive ReportedOutcome where
  | success
  | failed (msg : String)
deriving DecidableEq

/-- `upload_files` (manage-filestore.py:199-200): once the wait loop exits it
unconditionally prints `✅ Uploaded successfully` and increments the counter;
the final operation state is not inspected. -/
def uploadLoopResult (op : Operation) (fetches : List Operation) :
    Option ReportedOutcome :=
  (pollLoop op fetches).map (fun _ => ReportedOutcome.success)

/-- `import_files` (manage-filestore.py:450-454): once the wait loop exits it
reports `❌ Failed` when the final operation carries an error, and
`✅ Imported successfully` (counting it) otherwise. -/
def importLoopResult (op : Operation) (fetches : List Operation) :
    Option ReportedOutcome :=
  (pollLoop op fetches).map (fun fin =>
    match fin.error with
    | some e => ReportedOutcome.failed e
    | none => ReportedOutcome.success)

theorem pollLoop_done (op : Operation) (fetches : List Operation)
    (fin : Operation) (h : pollLoop op fetches = some fin) :
    fin.done = true := by
  induction fetches generalizing op with
  | nil =>
    unfold pollLoop at h
    by_cases hd : op.done
    · simp [hd] at h; simpa [← h] using hd
    · simp [hd] at h
  | cons f rest ih =>
    unfold pollLoop at h
    by_cases hd : op.done
    · simp [hd] at h; simpa [← h] using hd
    · simp [hd] at h; exact ih f h

/-!
## Batch ingestion — `upload_files` and `import_files` (manage-filestore.py)

Each file of a batch is described by the environment data the run will see
for it: whether the local file exists (`os.path.exists`), what the
submission call returns (an operation, or a raised exception as
`Except.error`), and the successive operation states the poll fetches.
-/

deriving instance DecidableEq for Except

/-- Environment data for one file of an upload batch. -/
structure FileSpec where
  path : String
  onDisk : Bool
  submit : Except String Operation
  fetches : List Operation
deriving DecidableEq

/-- Environment data for one file id of an import batch
(`import_files` does no local-existence check). -/
structure ImportSpec where
  fileId : String
  submit : Except String Operation
  fetches : List Operation
deriving DecidableEq

/-- Per-file outcome recorded by the batch loops. -/
inductive FileOutcome where
  | skipped
  | submitFailed (msg : String)
  | opFailed (msg : String)
  | success
deriving DecidableEq

/-- One iteration of `upload_files` (manage-filestore.py:173-203):
missing file → warning, `continue`; submission exception → caught by the
`except`, recorded, loop continues; otherwise poll to completion and report
success unconditionally.  `none` means the poll loop never exited within its
fetch trace (the Python function would still be inside the `while`). -/
def uploadOne (f : FileSpec) : Option FileOutcome :=
  if f.onDisk then
    match f.submit with
    | .error e => some (.submitFailed e)
    | .ok op =>
      match pollLoop op f.fetches with
      | none => none
      | some _ => some .success
  else some .skipped

/-- The whole `upload_files` batch loop: per-file outcomes in order.
`none` when some file's poll never exits (all later files unreached). -/
def upload_files : List FileSpec → Option (List FileOutcome)
  | [] => some []
  | f :: rest =>
    match uploadOne f with
    | none => none
    | some o =>
      match upload_files rest with
      | none => none
      | some os => some (o :: os)

/-- One iteration of `import_files` (manage-filestore.py:431-457):
submission exception → caught, recorded, loop continues; otherwise poll to
completion and branch on `operation.error`. -/
def importOne (f : ImportSpec) : Option FileOutcome :=
  match f.submit with
  | .error e => some (.submitFailed e)
  | .ok op =>
    match pollLoop op f.fetches with
    | none => none
    | some fin =>
      match fin.error with
      | some e => some (.opFailed e)
      | none => some .success

/-- The whole `import_files` batch loop. -/
def import_files : List ImportSpec → Option (List FileOutcome)
  | [] => some []
  | f :: rest =>
    match importOne f with
    | none => none
    | some o =>
      match import_files rest with
      | none => none
      | some os => some (o :: os)

/-!
## Stats aggregation — `show_stats` (manage-filestore.py:119-166)

The remote state a run of the global branch observes is the per-store result
of `documents.list`: either the document list or a raised exception.  The
code accumulates counts and sizes in a loop whose body is wrapped in
`try: … except: pass`.  The code displays sizes in MB (`size_bytes` summed
then divided by 1024*1024); the model keeps the byte sums, of which the
printed figures are a fixed rescaling.
-/

/-- `getattr(doc, 'size_bytes', 0)`. -/
def docSize (d : Document) : Nat := d.sizeBytes.getD 0

/-- Sum of the known sizes of one store's documents. -/
def docsSize (docs : List Document) : Nat := (docs.map docSize).sum

/-- The size contribution one store's listing result makes to the global
totals: a failed listing contributes nothing (`except: pass`). -/
def listingSize (r : Except String (List Document)) : Nat :=
  match r with
  | .ok docs => docsSize docs
  | .error _ => 0

/-- The document-count contribution of one store's listing result. -/
def listingCount (r : Except String (List Document)) : Nat :=
  match r with
  | .ok docs => docs.length
  | .error _ => 0

/-- The summary the global `stats` branch prints. -/
structure GlobalStats where
  storeCount : Nat
  totalDocs : Nat
  totalSizeBytes : Nat
  estimatedStorageBytes : Nat
  estimateLabel : String
deriving DecidableEq

/-- One iteration of the accumulation loop of the global branch
(manage-filestore.py:146-153): add the store's document count and size when
its listing succeeds, skip it (`except: pass`) when it raises. -/
def statsStep (acc : Nat × Nat) (r : Except String (List Document)) :
    Nat × Nat :=
  match r with
  | .ok docs => (acc.1 + docs.length, acc.2 + docsSize docs)
  | .error _ => acc

/-- The whole accumulation loop: totals of documents and bytes. -/
def statsFold (listings : List (Except String (List Document))) :
    Nat × Nat :=
  listings.foldl statsStep (0, 0)

/-- `show_stats()` with no store name (manage-filestore.py:134-166).
Returns `none` when no stores exist (the code prints `No stores found.` and
returns before computing anything).  The estimate is the fixed 3x multiplier
(`total_size_mb * 3  # Approximation with embeddings`) and is printed under
the label recorded in `estimateLabel`. -/
def show_stats_global :
    List (Except String (List Document)) → Option GlobalStats
  | [] => none
  | listings@(_ :: _) =>
    some
      { storeCount := listings.length
        totalDocs := (statsFold listings).1
        totalSizeBytes := (statsFold listings).2
        estimatedStorageBytes := 3 * (statsFold listings).2
        estimateLabel := "Estimated Storage Used" }

/-- The per-store summary of `show_stats(store_name)`. -/
structure StoreStats where
  documents : Nat
  totalSizeBytes : Nat
  estimatedStorageBytes : Nat
  estimateLabel : String
deriving DecidableEq

/-- `show_stats(store_name)` (manage-filestore.py:121-133): one listing,
whose failure is caught and reported as an error outcome. -/
def show_stats_store (listing : Except String (List Document)) :
    Except String StoreStats :=
  match listing with
  | .error e => .error e
  | .ok docs =>
    .ok
      { documents := docs.length
        totalSizeBytes := docsSize docs
        estimatedStorageBytes := 3 * docsSize docs
        estimateLabel := "Estimated Storage (with embeddings)" }

/-!
## Confirmed destructive commands — `delete_store`, `remove_document`

manage-filestore.py:308-335 (and the identical manage-store.py:74-101):
prompt, read a line, lowercase-compare against `yes`; only on match issue
the remote delete (with `force=True` for stores).  Any exception from the
remote call is caught and printed — the function returns normally either
way.
-/

/-- Result of a confirmation-gated command. -/
inductive ConfirmedActionResult where
  | performed
  | cancelled
  | failed (msg : String)
deriving DecidableEq

/-- `confirm.lower()`: lowercase every character.  (Stated directly over
the character list so that it evaluates by reduction.) -/
def strLower (s : String) : String := ⟨s.data.map Char.toLower⟩

/-- `delete_store(store_name)` given the line the user typed and the remote
delete call's outcome.  Returns the issued remote calls and the result. -/
def delete_store (storeName confirm : String)
    (remote : Except String Unit) :
    List RemoteCall × ConfirmedActionResult :=
  if strLower confirm = "yes" then
    match remote with
    | .ok _ => ([RemoteCall.deleteStore storeName true], .performed)
    | .error e => ([RemoteCall.deleteStore storeName true], .failed e)
  else ([], .cancelled)

/-- `remove_document(doc_id)`, same gate around `delete_document`. -/
def remove_document (docId confirm : String)
    (remote : Except String Unit) :
    List RemoteCall × ConfirmedActionResult :=
  if strLower confirm = "yes" then
    match remote with
    | .ok _ => ([RemoteCall.deleteDocument docId], .performed)
    | .error e => ([RemoteCall.deleteDocument docId], .failed e)
  else ([], .cancelled)

/-!
## Query and citations — `query_store` (query-store.py:48-84,
manage-filestore.py:337-373, identical logic)

The response of `generate_content` is modelled by the fields the code
reads: `response.text`, `response.candidates` and, on the first candidate,
`grounding_metadata` (`none` models a falsy/absent value) whose
`grounding_chunks` each optionally carry a `file_search` attribution
(`hasattr(chunk, 'file_search')`) with the document and an optional
`page_range`.
-/

/-- `chunk.file_search.page_range`. -/
structure PageRange where
  startPageIndex : Nat
  endPageIndex : Nat
deriving DecidableEq

/-- The `file_search` attribution of a grounding chunk. -/
structure FileSearchAttr where
  documentDisplayName : String
  pageRange : Option PageRange
deriving DecidableEq

/-- One grounding chunk; `attribution = none` models a chunk with no
`file_search` field. -/
structure GroundingChunk where
  attribution : Option FileSearchAttr
deriving DecidableEq

/-- `candidate.grounding_metadata.grounding_chunks`. -/
structure GroundingMetadata where
  groundingChunks : List GroundingChunk
deriving DecidableEq

/-- One response candidate; `groundingMetadata = none` models an absent or
falsy `grounding_metadata`. -/
structure Candidate where
  groundingMetadata : Option GroundingMetadata
deriving DecidableEq

/-- The fields of a `generate_content` response the code reads. -/
structure GenResponse where
  text : String
  candidates : List Candidate
deriving DecidableEq

/-- One printed citation. -/
structure Citation where
  documentDisplayName : String
  pageRange : Option PageRange
deriving DecidableEq

/-- The citation extraction of `query_store`: when grounding metadata is
present, walk `grounding_chunks` and print a source line exactly for the
chunks that carry a `file_search` attribution; with no grounding metadata
the loop is not entered and no citation is produced. -/
def extractCitations (c : Candidate) : List Citation :=
  match c.groundingMetadata with
  | none => []
  | some md =>
    md.groundingChunks.filterMap (fun ch =>
      ch.attribution.map (fun fs =>
        { documentDisplayName := fs.documentDisplayName
          pageRange := fs.pageRange }))

/-- Outcome of one `query_store` call. -/
inductive QueryOutcome where
  | answered (text : String) (citations : List Citation)
  | errored (msg : String)
deriving DecidableEq

/-- `query_store(store_name, question, model)` given the remote call's
outcome.  A raised exception is caught by the `except` and reported as an
error; `response.candidates[0]` on an empty candidate list raises an
`IndexError`, also caught. -/
def query_store (storeName question model : String)
    (remote : Except String GenResponse) :
    List RemoteCall × QueryOutcome :=
  let call := RemoteCall.generateGrounded model question [storeName]
  match remote with
  | .error e => ([call], .errored e)
  | .ok resp =>
    match resp.candidates with
    | [] => ([call], .errored "IndexError")
    | c :: _ => ([call], .answered resp.text (extractCitations c))

/-!
## The demo — `main` of gemini-rag-zero.py

The demo creates a store, iterates over the (hard-coded) sample file list
uploading each existing file with the fixed chunking config, then either
cleans up and returns when nothing was uploaded, or runs the questions and
finally deletes the store.  Unlike `upload_files`, the demo has no
`try/except` around the upload submission or the poll: a raised exception
propagates out of `main`.  Neither deletion site reads any confirmation.
-/

/-- The hard-coded sample file list (gemini-rag-zero.py:112-116). -/
def sampleFilePaths : List String :=
  ["samples/sample1.pdf", "samples/sample2.pdf", "samples/sample3.pdf"]

/-- The default questions (gemini-rag-zero.py:159-163). -/
def defaultQuestions : List String :=
  ["Summarize the main topics covered in the documents.",
   "What are the key findings or recommendations?",
   "List any important dates or deadlines mentioned."]

/-- Result of the demo's upload loop. -/
inductive DemoLoopRes where
  | counted (n : Nat)
  | raised (msg : String)
  | hang
deriving DecidableEq

/-- The demo upload loop (gemini-rag-zero.py:118-143): skip missing files;
for an existing file issue the upload with the fixed chunking config; a
submission exception is uncaught and aborts the loop (and `main`); once the
poll exits, count the file as uploaded without inspecting the final
operation state. -/
def demoUploadLoop (storeName : String) :
    List FileSpec → List RemoteCall × DemoLoopRes
  | [] => ([], .counted 0)
  | f :: rest =>
    if f.onDisk then
      let call := RemoteCall.submitUpload storeName f.path demoChunkingConfig
      match f.submit with
      | .error e => ([call], .raised e)
      | .ok op =>
        match pollLoop op f.fetches with
        | none => ([call], .hang)
        | some _ =>
          let r := demoUploadLoop storeName rest
          (call :: r.1,
           match r.2 with
           | .counted n => .counted (n + 1)
           | other => other)
    else demoUploadLoop storeName rest

/-- The demo question loop (gemini-rag-zero.py:165-187): one
`generate_content` call per question, uncaught on failure;
`response.candidates[0]` raises on an empty candidate list.  Returns the
issued calls and `some msg` when an exception propagated. -/
def demoQueryLoop (storeName model : String)
    (results : Nat → Except String GenResponse) :
    List String → Nat → List RemoteCall × Option String
  | [], _ => ([], none)
  | q :: qs, i =>
    let call := RemoteCall.generateGrounded model q [storeName]
    match results i with
    | .error e => ([call], some e)
    | .ok resp =>
      match resp.candidates with
      | [] => ([call], some "IndexError")
      | _ :: _ =>
        let r := demoQueryLoop storeName model results qs (i + 1)
        (call :: r.1, r.2)

/-- The environment one run of the demo observes: the store-creation
outcome, the per-sample-file data, the outcome of the i-th question call,
and the outcome of the final delete call. -/
structure DemoEnv where
  createResult : Except String Store
  files : List FileSpec
  queryResult : Nat → Except String GenResponse
  deleteResult : Except String Unit

/-- How a run of the demo `main` ends. -/
inductive DemoOutcome where
  | nothingToDo
  | completed (uploaded : Nat)
deriving DecidableEq

/-- A demo run either returns normally with an outcome, propagates an
exception (`exit(1)` on creation failure is also abnormal termination), or
hangs inside a poll loop. -/
inductive DemoResult where
  | ok (o : DemoOutcome)
  | raised (msg : String)
  | hang
deriving DecidableEq

/-- The display name literal of gemini-rag-zero.py:69. -/
def demoStoreDisplayName : String := "Company Knowledge Base - Demo"

/-- `main` of gemini-rag-zero.py, as a function of the model choice, the
optional custom query, and the environment: returns the trace of issued
remote calls and how the run ended.  `uploaded_count == 0` triggers the
cleanup delete and the early return (lines 145-149); otherwise the
questions run and the store is deleted at the end (line 192).  Both delete
calls pass `force=True` and are unconditional on their path. -/
def demoMain (modelName : String) (customQuery : Option String)
    (env : DemoEnv) : List RemoteCall × DemoResult :=
  let createCall := RemoteCall.createStore demoStoreDisplayName
  match env.createResult with
  | .error e => ([createCall], .raised e)
  | .ok st =>
    let up := demoUploadLoop st.name env.files
    match up.2 with
    | .raised e => (createCall :: up.1, .raised e)
    | .hang => (createCall :: up.1, .hang)
    | .counted n =>
      if n = 0 then
        let delCall := RemoteCall.deleteStore st.name true
        match env.deleteResult with
        | .error e => (createCall :: up.1 ++ [delCall], .raised e)
        | .ok _ => (createCall :: up.1 ++ [delCall], .ok .nothingToDo)
      else
        let questions :=
          match customQuery with
          | some q => [q]
          | none => defaultQuestions
        let qr := demoQueryLoop st.name modelName env.queryResult questions 0
        match qr.2 with
        | some e => (createCall :: up.1 ++ qr.1, .raised e)
        | none =>
          let delCall := RemoteCall.deleteStore st.name true
          match env.deleteResult with
          | .error e => (createCall :: up.1 ++ qr.1 ++ [delCall], .raised e)
          | .ok _ => (createCall :: up.1 ++ qr.1 ++ [delCall], .ok (.completed n))

/-!
## Concrete instances

Sample remote states used to evaluate the embedded functions at specific
inputs.
-/

/-- A completed operation carrying an error and no response — a failed
upload/import as §3 describes it. -/
def opBad : Operation := { done := true, error := some "boom", response := none }

/-- A completed operation carrying a response and no error. -/
def opOk : Operation := { done := true, error := none, response := some "ok" }

/-- A not-yet-done operation state. -/
def opPending : Operation := { done := false, error := none, response := none }

/-- A 10 MB document. -/
def doc10MB : Document :=
  { name := "fileSearchStores/s1/documents/d1"
    displayName := "a.pdf"
    sizeBytes := some 10485760 }

/-- A 20 MB document. -/
def doc20MB : Document :=
  { name := "fileSearchStores/s1/documents/d2"
    displayName := "b.pdf"
    sizeBytes := some 20971520 }

/-- A 0-byte document. -/
def docZero : Document :=
  { name := "fileSearchStores/s2/documents/d3"
    displayName := "z.pdf"
    sizeBytes := some 0 }

/-- A document whose size the remote system has not reported. -/
def docNoSize : Document :=
  { name := "fileSearchStores/s2/documents/d4"
    displayName := "u.pdf"
    sizeBytes := none }

/-- A remote state where every reported size is 0 bytes. -/
def zeroListings : List (Except String (List Document)) :=
  [Except.ok [docZero, docNoSize], Except.ok []]

/-- An upload batch whose first file is missing, whose second file's
submission raises, and whose third file uploads successfully. -/
def batchC4 : List FileSpec :=
  [{ path := "samples/sample1.pdf", onDisk := false,
     submit := .error "unused", fetches := [] },
   { path := "samples/sample2.pdf", onDisk := true,
     submit := .error "boom", fetches := [] },
   { path := "samples/sample3.pdf", onDisk := true,
     submit := .ok opPending, fetches := [opOk] }]

/-- The per-file outcomes `upload_files` records for `batchC4`. -/
def outsC4 : List FileOutcome :=
  [FileOutcome.skipped, FileOutcome.submitFailed "boom", FileOutcome.success]

/-- A demo environment whose first sample file exists but whose upload
submission raises, and whose second sample file also exists. -/
def envC4 : DemoEnv :=
  { createResult := .ok { name := "fileSearchStores/c4", displayName := demoStoreDisplayName }
    files :=
      [{ path := "samples/sample1.pdf", onDisk := true, submit := .error "boom", fetches := [] },
       { path := "samples/sample2.pdf", onDisk := true, submit := .ok opOk, fetches := [] }]
    queryResult := fun _ => .error "unused"
    deleteResult := .ok () }

/-- A demo environment with no sample file present on disk. -/
def envC5 : DemoEnv :=
  { createResult := .ok { name := "fileSearchStores/demo", displayName := demoStoreDisplayName }
    files :=
      [{ path := "samples/sample1.pdf", onDisk := false, submit := .error "unused", fetches := [] },
       { path := "samples/sample2.pdf", onDisk := false, submit := .error "unused", fetches := [] },
       { path := "samples/sample3.pdf", onDisk := false, submit := .error "unused", fetches := [] }]
    queryResult := fun _ => .error "unused"
    deleteResult := .ok () }

/-- Another zero-files-on-disk demo environment. -/
def envC9 : DemoEnv :=
  { createResult := .ok { name := "fileSearchStores/c9", displayName := demoStoreDisplayName }
    files :=
      [{ path := "samples/sample1.pdf", onDisk := false, submit := .error "unused", fetches := [] },
       { path := "samples/sample2.pdf", onDisk := false, submit := .error "unused", fetches := [] },
       { path := "samples/sample3.pdf", onDisk := false, submit := .error "unused", fetches := [] }]
    queryResult := fun _ => .error "unused"
    deleteResult := .ok () }

/-- A demo environment for a full successful run: one sample file on disk,
its upload completing, one question answered. -/
def envC10 : DemoEnv :=
  { createResult := .ok { name := "fileSearchStores/c10", displayName := demoStoreDisplayName }
    files :=
      [{ path := "samples/sample1.pdf", onDisk := true, submit := .ok opPending,
         fetches := [opOk] },
       { path := "samples/sample2.pdf", onDisk := false, submit := .error "unused", fetches := [] },
       { path := "samples/sample3.pdf", onDisk := false, submit := .error "unused", fetches := [] }]
    queryResult := fun _ =>
      .ok { text := "hello", candidates := [{ groundingMetadata := none }] }
    deleteResult := .ok () }

/-- A response candidate with no grounding metadata. -/
def candNoMeta : Candidate := { groundingMetadata := none }

/-- A response whose single candidate carries no grounding metadata. -/
def respNoMeta : GenResponse := { text := "hello", candidates := [candNoMeta] }

/-- Grounding metadata whose single chunk lacks a `file_search`
attribution. -/
def mdUnattributed : GroundingMetadata :=
  { groundingChunks := [{ attribution := none }] }

/-- A candidate whose grounding metadata holds only an unattributed
chunk. -/
def candUnattributed : Candidate := { groundingMetadata := some mdUnattributed }

/-- A response whose single candidate holds only an unattributed chunk. -/
def respUnattributed : GenResponse :=
  { text := "hello", candidates := [candUnattributed] }

/-!
## Theorems
-/

/-- C1.  Corrected form.  Every completion-wait loop returns a result only
after a fetched operation state has `done == true`.  The reporting tails,
however, differ from the claim: `import_files` reports Failed exactly when
the final state carries an error and Success exactly when it carries none —
which coincides with "Success iff a response is present" only under the
exactly-one-of-error/response invariant of §3 — while `upload_files` (and
the demo, see the counterexample) reports Success unconditionally once the
loop exits, never Failed. -/
theorem c1_await_reporting (op : Operation) (fetches : List Operation)
    (fin : Operation) (h : pollLoop op fetches = some fin) :
    fin.done = true
    ∧ uploadLoopResult op fetches = some ReportedOutcome.success
    ∧ (∀ e, importLoopResult op fetches = some (ReportedOutcome.failed e)
        ↔ fin.error = some e)
    ∧ (importLoopResult op fetches = some ReportedOutcome.success
        ↔ fin.error = none)
    ∧ (wellFormedOp fin →
        (importLoopResult op fetches = some ReportedOutcome.success
          ↔ fin.response.isSome)) := by
  have hdone := pollLoop_done op fetches fin h
  refine ⟨hdone, ?_, ?_, ?_, ?_⟩
  · simp [uploadLoopResult, h]
  · intro e
    cases herr : fin.error <;> simp [importLoopResult, h, herr]
  · cases herr : fin.error <;> simp [importLoopResult, h, herr]
  · intro hwf
    have hiff := hwf hdone
    cases herr : fin.error <;> cases hresp : fin.response <;>
      simp [herr, hresp] at hiff ⊢ <;>
      simp [importLoopResult, h, herr]

/-- C1 witness: a pending operation whose next fetched state is done with a
response; the loop returns that state, it is done, and the import loop
reports Success. -/
theorem c1_await_reporting_witness :
    Operation.done { done := true, error := none, response := some "r" } = true
    ∧ importLoopResult { done := false, error := none, response := none }
        [{ done := true, error := none, response := some "r" }]
      = some ReportedOutcome.success := by
  have h := c1_await_reporting
    { done := false, error := none, response := none }
    [{ done := true, error := none, response := some "r" }]
    { done := true, error := none, response := some "r" }
    (by decide)
  exact ⟨h.1, h.2.2.2.1.mpr rfl⟩

/-- C1 counterexample: an operation that completes with `done == true` and
an error present (and no response).  The claim says the reported outcome is
then Failed; but `upload_files` reports Success (`✅ Uploaded successfully`,
counter incremented), and the demo loop likewise counts the file as
uploaded. -/
theorem c1_upload_success_despite_error :
    opBad.done = true
    ∧ opBad.error = some "boom"
    ∧ opBad.response = none
    ∧ uploadLoopResult opBad [] = some ReportedOutcome.success
    ∧ uploadLoopResult opBad [] ≠ some (ReportedOutcome.failed "boom")
    ∧ demoUploadLoop "fileSearchStores/s"
        [{ path := "samples/sample1.pdf", onDisk := true,
           submit := .ok opBad, fetches := [] }]
      = ([RemoteCall.submitUpload "fileSearchStores/s" "samples/sample1.pdf"
            demoChunkingConfig],
         DemoLoopRes.counted 1) := by
  refine ⟨rfl, rfl, rfl, rfl, ?_, rfl⟩
  decide

theorem statsStep_foldl (l : List (Except String (List Document))) :
    ∀ a b : Nat,
      l.foldl statsStep (a, b)
        = (a + (l.map listingCount).sum, b + (l.map listingSize).sum) := by
  induction l with
  | nil => intro a b; simp
  | cons r rest ih =>
    intro a b
    cases r with
    | ok docs =>
      simp [statsStep, listingCount, listingSize, ih, Nat.add_assoc]
    | error e =>
      simp [statsStep, listingCount, listingSize, ih]

theorem statsFold_eq (l : List (Except String (List Document))) :
    statsFold l = ((l.map listingCount).sum, (l.map listingSize).sum) := by
  unfold statsFold
  rw [statsStep_foldl]
  simp

/-- C2.  Corrected form.  A failure fetching one store's document list does
not abort aggregation over the remaining stores and contributes zero to the
document and size totals (the failing store still counts toward
`storeCount`); however no warning of any kind is recorded: the summary is
exactly the one obtained when that store's listing succeeds with an empty
document list.  With one failing store and one store holding a 10 MB and a
20 MB document, the totals are 2 documents and 30 MB. -/
theorem c2_isolation_without_warning :
    (∀ (e : String) (pre post : List (Except String (List Document))),
       show_stats_global (pre ++ Except.error e :: post)
         = show_stats_global (pre ++ Except.ok [] :: post))
    ∧ show_stats_global [Except.error "boom", Except.ok [doc10MB, doc20MB]]
        = some
            { storeCount := 2
              totalDocs := 2
              totalSizeBytes := 31457280
              estimatedStorageBytes := 94371840
              estimateLabel := "Estimated Storage Used" } := by
  constructor
  · intro e pre post
    cases pre with
    | nil =>
      simp [show_stats_global, statsFold_eq, listingCount, listingSize,
        docsSize]
    | cons a l =>
      simp [show_stats_global, statsFold_eq, listingCount, listingSize,
        docsSize]
  · decide

/-- C2 counterexample: the global stats summary of a run where the first
store's document listing raises is identical to the summary of a run where
that store simply has no documents — the failure is silently swallowed
(`except: pass`); no warning flag exists anywhere in the output, refuting
the claim that a warning flag is set and the failure never silently
dropped. -/
theorem c2_failure_indistinguishable :
    show_stats_global [Except.error "boom", Except.ok [doc10MB, doc20MB]]
      = show_stats_global [Except.ok [], Except.ok [doc10MB, doc20MB]] := by
  decide

/-- C7.  For every run of the stats aggregation (global and per-store), the
reported total input size is the sum of the known document sizes with
unknown sizes treated as 0 (`getattr(doc, 'size_bytes', 0)`), the estimated
storage is exactly the fixed 3x multiplier applied to that total, and the
printed label marks it as an estimate; consequently a remote state where
every reported size is 0 bytes yields total 0 and estimate 0. -/
theorem c7_stats_totals :
    (∀ listings s, show_stats_global listings = some s →
       s.totalDocs = (listings.map listingCount).sum
       ∧ s.totalSizeBytes = (listings.map listingSize).sum
       ∧ s.estimatedStorageBytes = 3 * s.totalSizeBytes
       ∧ s.estimateLabel = "Estimated Storage Used"
       ∧ ((∀ r ∈ listings, ∀ docs, r = Except.ok docs →
             ∀ d ∈ docs, docSize d = 0) →
           s.totalSizeBytes = 0 ∧ s.estimatedStorageBytes = 0))
    ∧ (∀ listing st, show_stats_store listing = .ok st →
       st.totalSizeBytes = listingSize listing
       ∧ st.estimatedStorageBytes = 3 * st.totalSizeBytes
       ∧ st.estimateLabel = "Estimated Storage (with embeddings)") := by
  constructor
  · intro listings s h
    have hzero : (∀ r ∈ listings, ∀ docs, r = Except.ok docs →
        ∀ d ∈ docs, docSize d = 0) →
        (listings.map listingSize).sum = 0 := by
      intro hz
      apply List.sum_eq_zero
      intro x hx
      obtain ⟨r, hr, hxr⟩ := List.mem_map.mp hx
      cases r with
      | ok docs =>
        have : docsSize docs = 0 := by
          apply List.sum_eq_zero
          intro y hy
          obtain ⟨d, hd, hyd⟩ := List.mem_map.mp hy
          rw [← hyd]; exact hz _ hr docs rfl d hd
        simpa [listingSize, this] using hxr.symm
      | error e => simpa [listingSize] using hxr.symm
    cases listings with
    | nil => simp [show_stats_global] at h
    | cons a l =>
      rw [show_stats_global] at h
      obtain rfl : _ = s := Option.some.inj h
      refine ⟨by simp [statsFold_eq], by simp [statsFold_eq], rfl, rfl, ?_⟩
      intro hz
      have h0 := hzero hz
      have hsz : (statsFold (a :: l)).2 = (List.map listingSize (a :: l)).sum := by
        rw [statsFold_eq]
      constructor
      · show (statsFold (a :: l)).2 = 0
        rw [hsz, h0]
      · show 3 * (statsFold (a :: l)).2 = 0
        rw [hsz, h0]
  · intro listing st h
    cases listing with
    | error e => simp [show_stats_store] at h
    | ok docs =>
      rw [show_stats_store] at h
      obtain rfl : _ = st := Except.ok.inj h
      exact ⟨rfl, rfl, rfl⟩

/-- C7 witness: a remote state whose reported sizes are all 0 bytes (one of
them unreported, hence treated as 0) yields total 0 and estimate 0. -/
theorem c7_stats_totals_witness :
    show_stats_global zeroListings
      = some
          { storeCount := 2
            totalDocs := 2
            totalSizeBytes := 0
            estimatedStorageBytes := 0
            estimateLabel := "Estimated Storage Used" }
    ∧ (0 : Nat) = 0 ∧ (0 : Nat) = 0 := by
  refine ⟨by decide, ?_⟩
  have hall : ∀ r ∈ zeroListings, ∀ docs, r = Except.ok docs →
      ∀ d ∈ docs, docSize d = 0 := by
    intro r hr docs hrd d hd
    subst hrd
    simp [zeroListings] at hr
    rcases hr with hr | hr
    · subst hr
      simp at hd
      rcases hd with hd | hd <;> subst hd <;> decide
    · subst hr
      simp at hd
  have h := c7_stats_totals.1 zeroListings
    { storeCount := 2
      totalDocs := 2
      totalSizeBytes := 0
      estimatedStorageBytes := 0
      estimateLabel := "Estimated Storage Used" }
    (by decide)
  exact h.2.2.2.2 hall

theorem upload_files_pointwise :
    ∀ specs outs, upload_files specs = some outs →
      outs.length = specs.length
      ∧ ∀ (i : Nat) f, specs[i]? = some f → outs[i]? = uploadOne f := by
  intro specs
  induction specs with
  | nil =>
    intro outs h
    obtain rfl : [] = outs := Option.some.inj h
    simp
  | cons f rest ih =>
    intro outs h
    rw [upload_files] at h
    cases hf : uploadOne f with
    | none => rw [hf] at h; simp at h
    | some o =>
      rw [hf] at h
      cases hr : upload_files rest with
      | none => rw [hr] at h; simp at h
      | some os =>
        rw [hr] at h
        obtain rfl : o :: os = outs := Option.some.inj h
        obtain ⟨hlen, hidx⟩ := ih os hr
        refine ⟨by simp [hlen], ?_⟩
        intro i g hg
        cases i with
        | zero =>
          simp at hg
          subst hg
          simp [hf]
        | succ n =>
          simp at hg ⊢
          exact hidx n g hg

theorem import_files_pointwise :
    ∀ specs outs, import_files specs = some outs →
      outs.length = specs.length
      ∧ ∀ (i : Nat) g, specs[i]? = some g → outs[i]? = importOne g := by
  intro specs
  induction specs with
  | nil =>
    intro outs h
    obtain rfl : [] = outs := Option.some.inj h
    simp
  | cons f rest ih =>
    intro outs h
    rw [import_files] at h
    cases hf : importOne f with
    | none => rw [hf] at h; simp at h
    | some o =>
      rw [hf] at h
      cases hr : import_files rest with
      | none => rw [hr] at h; simp at h
      | some os =>
        rw [hr] at h
        obtain rfl : o :: os = outs := Option.some.inj h
        obtain ⟨hlen, hidx⟩ := ih os hr
        refine ⟨by simp [hlen], ?_⟩
        intro i g hg
        cases i with
        | zero =>
          simp at hg
          subst hg
          simp [hf]
        | succ n =>
          simp at hg ⊢
          exact hidx n g hg

/-- C4.  Corrected form.  In `upload_files` and `import_files`
(manage-filestore.py) every fileRef of a terminating batch gets exactly one
recorded outcome, computed from its own data alone — a missing file or a
failing submission yields a recorded per-item outcome and never prevents
any later fileRef from being attempted.  (The demo `main` is the exception:
see the counterexample — there only missing files are tolerated, and a
failing submission aborts the batch.) -/
theorem c4_manage_batches_isolate_failures :
    (∀ specs outs, upload_files specs = some outs →
       outs.length = specs.length
       ∧ ∀ (i : Nat) f, specs[i]? = some f → outs[i]? = uploadOne f)
    ∧ (∀ specs outs, import_files specs = some outs →
       outs.length = specs.length
       ∧ ∀ (i : Nat) g, specs[i]? = some g → outs[i]? = importOne g)
    ∧ (∀ f e, f.onDisk = true → f.submit = Except.error e →
       uploadOne f = some (FileOutcome.submitFailed e))
    ∧ (∀ f, f.onDisk = false → uploadOne f = some FileOutcome.skipped)
    ∧ (∀ g e, g.submit = Except.error e →
       importOne g = some (FileOutcome.submitFailed e)) := by
  refine ⟨upload_files_pointwise, import_files_pointwise, ?_, ?_, ?_⟩
  · intro f e hd hs
    simp [uploadOne, hd, hs]
  · intro f hd
    simp [uploadOne, hd]
  · intro g e hs
    simp [importOne, hs]

/-- C4 witness: a three-file upload batch whose first file is missing and
whose second file's submission raises still attempts and records the third
file. -/
theorem c4_manage_batches_isolate_failures_witness :
    upload_files batchC4 = some outsC4
    ∧ outsC4.length = batchC4.length
    ∧ outsC4[2]?
      = uploadOne
          { path := "samples/sample3.pdf", onDisk := true,
            submit := .ok opPending, fetches := [opOk] } := by
  refine ⟨by decide, ?_, ?_⟩
  · exact (c4_manage_batches_isolate_failures.1 batchC4 outsC4 (by decide)).1
  · exact (c4_manage_batches_isolate_failures.1 batchC4 outsC4 (by decide)).2 2
      { path := "samples/sample3.pdf", onDisk := true,
        submit := .ok opPending, fetches := [opOk] } (by decide)

/-- C4 counterexample: in the demo `main`, a batch whose first sample file
exists but whose upload submission raises aborts the whole run — the second
(existing) sample file is never submitted, contradicting the claim that
every remaining fileRef is still attempted. -/
theorem c4_demo_submit_failure_halts_batch :
    demoMain "gemini-2.5-flash" none envC4
      = ([RemoteCall.createStore demoStoreDisplayName,
          RemoteCall.submitUpload "fileSearchStores/c4" "samples/sample1.pdf"
            demoChunkingConfig],
         DemoResult.raised "boom")
    ∧ RemoteCall.submitUpload "fileSearchStores/c4" "samples/sample2.pdf"
        demoChunkingConfig
      ∉ (demoMain "gemini-2.5-flash" none envC4).1 := by
  refine ⟨rfl, ?_⟩
  decide

/-- C5.  Corrected form.  In the management scripts (`delete_store`,
`remove_document` of manage-filestore.py and manage-store.py) the remote
delete call is issued exactly when the typed line lowercases to `yes`;
otherwise no remote call is made, no error is raised, and the command
returns the cancelled result.  (The demo is the exception: see the
counterexample — its two deletion sites read no confirmation at all.) -/
theorem c5_confirmation_gates_manage_deletes
    (name confirm : String) (remote : Except String Unit) :
    ((delete_store name confirm remote).1
       = if strLower confirm = "yes"
         then [RemoteCall.deleteStore name true] else [])
    ∧ (strLower confirm ≠ "yes" →
       delete_store name confirm remote = ([], .cancelled))
    ∧ ((remove_document name confirm remote).1
       = if strLower confirm = "yes"
         then [RemoteCall.deleteDocument name] else [])
    ∧ (strLower confirm ≠ "yes" →
       remove_document name confirm remote = ([], .cancelled)) := by
  refine ⟨?_, ?_, ?_, ?_⟩ <;>
    by_cases hc : strLower confirm = "yes" <;>
      cases remote <;> simp [delete_store, remove_document, hc]

/-- C5 witness: typing `no` cancels both commands without issuing any
remote call and without an error. -/
theorem c5_confirmation_gates_manage_deletes_witness :
    delete_store "fileSearchStores/abc" "no" (.ok ()) = ([], .cancelled)
    ∧ remove_document "fileSearchStores/abc/documents/d" "no" (.ok ())
      = ([], .cancelled) := by
  have h1 := c5_confirmation_gates_manage_deletes
    "fileSearchStores/abc" "no" (.ok ())
  have h2 := c5_confirmation_gates_manage_deletes
    "fileSearchStores/abc/documents/d" "no" (.ok ())
  exact ⟨h1.2.1 (by decide), h2.2.2.2 (by decide)⟩

/-- C5 counterexample: a run of the demo `main` whose trace contains the
remote force-delete call even though the demo reads no confirmation of any
kind (its inputs carry none and both its deletion sites are
unconditional), refuting the claim that every deletion in the program is
issued only after an explicit `yes`. -/
theorem c5_demo_deletes_without_confirmation :
    RemoteCall.deleteStore "fileSearchStores/demo" true
      ∈ (demoMain "gemini-2.5-flash" none envC5).1
    ∧ (demoMain "gemini-2.5-flash" none envC5).2
      = DemoResult.ok DemoOutcome.nothingToDo := by
  decide

theorem extractCitations_drops_unattributed (chunks : List GroundingChunk) :
    (chunks.filter (fun ch => ch.attribution.isSome)).filterMap
        (fun ch => ch.attribution.map (fun fs =>
          ({ documentDisplayName := fs.documentDisplayName
             pageRange := fs.pageRange } : Citation)))
      = chunks.filterMap
          (fun ch => ch.attribution.map (fun fs =>
            ({ documentDisplayName := fs.documentDisplayName
               pageRange := fs.pageRange } : Citation))) := by
  induction chunks with
  | nil => simp
  | cons ch rest ih =>
    cases hattr : ch.attribution with
    | none => simp [hattr, ih]
    | some fs => simp [hattr, ih]

/-- C6.  A response whose first candidate carries no grounding metadata
yields the answered (non-error) outcome with an empty citation list; and
chunks without a `file_search` attribution contribute nothing to the
citations — restricting the chunk list to the attributed chunks leaves the
extracted citations unchanged. -/
theorem c6_citations (storeName question model : String)
    (resp : GenResponse) (c : Candidate) (rest : List Candidate)
    (hc : resp.candidates = c :: rest) :
    (c.groundingMetadata = none →
       query_store storeName question model (.ok resp)
         = ([RemoteCall.generateGrounded model question [storeName]],
            .answered resp.text []))
    ∧ (∀ md, c.groundingMetadata = some md →
       extractCitations c
         = extractCitations
             { groundingMetadata :=
                 some { groundingChunks :=
                          md.groundingChunks.filter
                            (fun ch => ch.attribution.isSome) } }) := by
  constructor
  · intro hmd
    simp [query_store, hc, extractCitations, hmd]
  · intro md hmd
    simp [extractCitations, hmd, extractCitations_drops_unattributed]

/-- C6 witness: a response with one candidate and no grounding metadata is
answered with no citations; and a candidate whose only chunk lacks an
attribution extracts the empty citation list. -/
theorem c6_citations_witness :
    query_store "fileSearchStores/s1" "What are the key findings?"
        "gemini-2.5-flash" (.ok respNoMeta)
      = ([RemoteCall.generateGrounded "gemini-2.5-flash"
            "What are the key findings?" ["fileSearchStores/s1"]],
         .answered "hello" [])
    ∧ extractCitations candUnattributed = [] := by
  constructor
  · exact (c6_citations "fileSearchStores/s1" "What are the key findings?"
      "gemini-2.5-flash" respNoMeta candNoMeta [] rfl).1 rfl
  · have h := (c6_citations "fileSearchStores/s1" "What are the key findings?"
      "gemini-2.5-flash" respUnattributed candUnattributed [] rfl).2
      mdUnattributed rfl
    simpa [mdUnattributed, extractCitations] using h

theorem demoUploadLoop_all_missing (storeName : String)
    (files : List FileSpec) (h : ∀ f ∈ files, f.onDisk = false) :
    demoUploadLoop storeName files = ([], .counted 0) := by
  induction files with
  | nil => rfl
  | cons f rest ih =>
    have hf : f.onDisk = false := h f (by simp)
    rw [demoUploadLoop, hf]
    simp
    exact ih (fun g hg => h g (by simp [hg]))

/-- C9.  A demo run in which none of the sample files exists on disk (so
zero fileRefs validate) ends in the distinct nothing-to-do outcome — a
different constructor from the completed-upload outcome, after printing
`❌ No files were uploaded` — and its call trace contains the force
deletion of the store created for this ingestion, issued before the early
return; the question phase is never reached. -/
theorem c9_nothing_to_do_cleanup (modelName : String)
    (customQuery : Option String) (env : DemoEnv) (st : Store)
    (hc : env.createResult = .ok st)
    (hf : ∀ f ∈ env.files, f.onDisk = false)
    (hd : env.deleteResult = .ok ()) :
    demoMain modelName customQuery env
      = ([RemoteCall.createStore demoStoreDisplayName,
          RemoteCall.deleteStore st.name true],
         DemoResult.ok DemoOutcome.nothingToDo) := by
  simp only [demoMain.eq_def, hc]
  rw [demoUploadLoop_all_missing st.name env.files hf]
  simp [hd]

/-- C9 witness: the concrete no-files-on-disk environment ends in the
nothing-to-do outcome with the cleanup delete in the trace. -/
theorem c9_nothing_to_do_cleanup_witness :
    demoMain "gemini-2.5-pro" none envC9
      = ([RemoteCall.createStore demoStoreDisplayName,
          RemoteCall.deleteStore "fileSearchStores/c9" true],
         DemoResult.ok DemoOutcome.nothingToDo) :=
  c9_nothing_to_do_cleanup "gemini-2.5-pro" none envC9
    { name := "fileSearchStores/c9", displayName := demoStoreDisplayName }
    rfl (by decide) rfl

/-- C10.  Every run of the demo `main` that returns normally — on the
zero-uploads path and on the upload-and-query path alike — has issued the
force deletion of the store it created: the delete call on that store
appears in the run's trace of issued remote calls. -/
theorem c10_normal_return_deletes_store (modelName : String)
    (customQuery : Option String) (env : DemoEnv)
    (tr : List RemoteCall) (o : DemoOutcome)
    (h : demoMain modelName customQuery env = (tr, DemoResult.ok o)) :
    ∃ st, env.createResult = .ok st
      ∧ RemoteCall.deleteStore st.name true ∈ tr := by
  simp only [demoMain.eq_def] at h
  split at h
  · simp at h
  · rename_i st hcr
    refine ⟨st, hcr, ?_⟩
    split at h
    · simp at h
    · simp at h
    · rename_i n hup
      split at h
      · split at h
        · simp at h
        · obtain ⟨htr, -⟩ := Prod.mk.injEq .. ▸ h
          rw [← htr]
          simp
      · split at h
        · simp at h
        · split at h
          · simp at h
          · obtain ⟨htr, -⟩ := Prod.mk.injEq .. ▸ h
            rw [← htr]
            simp

/-- C10 witness: a full successful run (one file uploaded, one question
answered) whose trace indeed contains the force delete of the created
store. -/
theorem c10_normal_return_deletes_store_witness :
    ∃ st, envC10.createResult = .ok st
      ∧ RemoteCall.deleteStore st.name true
        ∈ [RemoteCall.createStore demoStoreDisplayName,
           RemoteCall.submitUpload "fileSearchStores/c10"
             "samples/sample1.pdf" demoChunkingConfig,
           RemoteCall.generateGrounded "gemini-2.5-flash"
             "Summarize the main topics covered in the documents."
             ["fileSearchStores/c10"],
           RemoteCall.generateGrounded "gemini-2.5-flash"
             "What are the key findings or recommendations?"
             ["fileSearchStores/c10"],
           RemoteCall.generateGrounded "gemini-2.5-flash"
             "List any important dates or deadlines mentioned."
             ["fileSearchStores/c10"],
           RemoteCall.deleteStore "fileSearchStores/c10" true] :=
  c10_normal_return_deletes_store "gemini-2.5-flash" none envC10 _
    (DemoOutcome.completed 1) (by decide)

end GeminiRag
